import Mathlib

/-!
Verification of the `caching-proxy` repository: a shallow embedding of
`caching_proxy/server.py`, `caching_proxy/cli.py` and the `ResponseCache`
component, with theorems settling the specification claims.

HTTP headers are modelled as ordered association lists of strings, mirroring
a Python `dict(...)` of header names to values (a Python dict preserves
insertion order and holds each name at most once).
-/

namespace CachingProxy

/-- HTTP headers: an ordered association list of (name, value) pairs,
the image of a Python dict's `.items()`. -/
abbrev Headers := List (String × String)

/-- The list of header names, in order. -/
def headerNames (h : Headers) : List String := h.map Prod.fst

/-- Python `d.pop(k, None)`: remove the entry named `k` when present
(`server.py` line 65). On a dict each name occurs at most once, so removing
every pair with that name is the same operation. -/
def eraseHeader (h : Headers) (k : String) : Headers :=
  h.filter (fun p => p.1 ≠ k)

/-- Python `{**d, k: v}` / `d[k] = v`: if `k` is already present its value is
replaced in place, otherwise `(k, v)` is appended at the end
(`server.py` lines 53 and 89). -/
def setHeader (h : Headers) (k v : String) : Headers :=
  if (headerNames h).contains k then
    h.map (fun p => if p.1 = k then (k, v) else p)
  else
    h ++ [(k, v)]

/-- Look a header name up in an association list, returning the first value. -/
def lookupHeader : Headers → String → Option String
  | [], _ => none
  | (k, v) :: rest, n => if k = n then some v else lookupHeader rest n

/-- Modelled from the spec: the repository's `caching_proxy/cache.py`
(component `CacheKey Deriver`, method `ResponseCache._generate_cache_key`)
is not among the given source files; only its tests and callers are.
Per the spec, the key is an opaque identifier obtained by concatenating
method, path, query string and a canonical serialization of the headers
(sorted by name) and hashing the result; identical inputs give identical
keys and any difference in header content gives a different key.
Two header dicts produce the same canonical serialization exactly when
their entry lists are permutations of one another, so we embed the key as
the tuple of the three strings together with the multiset of header
entries, which has precisely that equality (the hash is injective on the
serializations for the purposes of this model). -/
structure CacheKey where
  method : String
  path : String
  query : String
  headerBag : Multiset (String × String)
deriving DecidableEq

/-- Modelled from the spec: `ResponseCache._generate_cache_key(method, path,
query_string, headers)` — deterministic, pure, canonicalizes the headers. -/
def generate_cache_key (method path query : String) (headers : Headers) : CacheKey :=
  ⟨method, path, query, (headers : Multiset (String × String))⟩

/-- Modelled from the spec: one cached response as persisted by
`ResponseCache` — fields method, path, query, status, headers, content.
The creation timestamp (`cached_at`) is a wall-clock stamp irrelevant to
every claim (no TTL exists) and is omitted from the model. -/
structure CacheRecord where
  method : String
  path : String
  query : String
  status : Nat
  headers : Headers
  content : String
deriving DecidableEq

/-- The cache store: one record per cache key (the spec's one-file-per-key
directory), modelled as an association list keyed by `CacheKey`. -/
abbrev Cache := List (CacheKey × CacheRecord)

/-- Retrieve the record stored for a key, if any. -/
def cacheLookup : Cache → CacheKey → Option CacheRecord
  | [], _ => none
  | (k, r) :: rest, key => if k = key then some r else cacheLookup rest key

/-- Persist a record under a key, overwriting any existing record for that
key (the spec's last-write-wins choice). -/
def cacheInsert (c : Cache) (k : CacheKey) (r : CacheRecord) : Cache :=
  (k, r) :: c.filter (fun p => p.1 ≠ k)

namespace ResponseCache

/-- Modelled from the spec: `ResponseCache.get(method, path, query_string,
headers)` — returns absent when the method is not GET or when no record
exists for the derived key (on-disk corruption, also specified to read as
a miss, has no counterpart in the model). No side effect. -/
def get (c : Cache) (method path query : String) (headers : Headers) :
    Option CacheRecord :=
  if method = "GET" then cacheLookup c (generate_cache_key method path query headers)
  else none

/-- Modelled from the spec: `ResponseCache.store(method, path, query_string,
request_headers, status, response_headers, content)` — a silent no-op unless
the method is GET and the status lies in [200, 400); otherwise derives the
key from the request headers (not the response headers) and persists a new
record, overwriting any existing one. -/
def store (c : Cache) (method path query : String) (request_headers : Headers)
    (status : Nat) (response_headers : Headers) (content : String) : Cache :=
  if method = "GET" ∧ 200 ≤ status ∧ status < 400 then
    cacheInsert c (generate_cache_key method path query request_headers)
      ⟨method, path, query, status, response_headers, content⟩
  else c

end ResponseCache

/-- Character-list prefix test (used for the trailing-wildcard glob case). -/
def charPre : List Char → List Char → Bool
  | [], _ => true
  | _ :: _, [] => false
  | a :: as, b :: bs => a == b && charPre as bs

/-- Modelled from the spec: the path policy (`should_cache_path` /
`PathPolicy.allows`) that `src/tests/test_server.py::test_should_cache_path`
exercises is absent from `src/caching_proxy/server.py`; per the spec the
patterns are glob-style, "supporting at minimum a trailing `*` wildcard and
exact literal matches". A pattern ending in `*` matches every path beginning
with the pattern's stem; any other pattern matches exactly itself. -/
def globMatch (pat path : String) : Bool :=
  if pat.data.getLast? = some '*' then charPre pat.data.dropLast path.data
  else pat = path

/-- Modelled from the spec: a path is eligible for caching when it matches no
configured no-cache pattern. -/
def should_cache_path (no_cache_paths : List String) (path : String) : Bool :=
  !(no_cache_paths.any (fun pat => globMatch pat path))

/-- One incoming HTTP request, the fields `ProxyServer.handle_request`
extracts at `server.py` lines 42-45 plus the body it may read at line 71. -/
structure Request where
  method : String
  path : String
  query_string : String
  headers : Headers
  body : String

/-- The outcome of the single upstream forward attempt
(`session.request(...)` at `server.py` lines 74-84): a full response,
an `asyncio.TimeoutError`, or any other exception with its message. -/
inductive ForwardOutcome
  | success (status : Nat) (headers : Headers) (body : String)
  | timeout
  | failure (msg : String)

/-- An outgoing `web.Response`. A synthetic `web.Response(status=..., text=...)`
carries no explicitly set headers in the model. -/
structure Response where
  status : Nat
  headers : Headers
  body : String
deriving DecidableEq

/-- Everything observable about one run of `ProxyServer.handle_request`:
the response returned, the cache state afterwards, how many times
`self.cache.get` was called, how many upstream requests were issued, and
the exact argument tuple of the `self.cache.store` call when one was made
(method, path, query_string, request headers, status, response headers,
content). -/
structure HandleResult where
  response : Response
  cache : Cache
  cacheLookups : Nat
  forwardAttempts : Nat
  storeArgs : Option (String × String × String × Headers × Nat × Headers × String)

namespace ProxyServer

/-- Shallow embedding of `ProxyServer.handle_request` (`server.py` lines
32-117). The network is abstracted by the `fwd : ForwardOutcome` parameter;
the target-URL string built at lines 59-61 and the request body forwarded at
line 71 do not influence anything the claims observe and are not tracked.
Line 48 consults the cache unconditionally; on a hit (lines 49-56) the cached
status, headers plus `X-Cache: HIT`, and content are returned with no forward.
Otherwise lines 64-65 pop `Host` and `Content-Length` from the same `headers`
dict that was passed to `get`, the forward is attempted once, and on success
`X-Cache: MISS` is set on the response headers (line 89) before the store
gate `method == "GET" and 200 <= status < 400` (line 92). A timeout yields a
synthetic 504 and any other error a synthetic 502 (lines 107-117). -/
def handle_request (cache : Cache) (req : Request) (fwd : ForwardOutcome) :
    HandleResult :=
  let method := req.method
  let path := req.path
  let query_string := req.query_string
  let headers := req.headers
  match ResponseCache.get cache method path query_string headers with
  | some cached =>
      { response := ⟨cached.status, setHeader cached.headers "X-Cache" "HIT",
                     cached.content⟩
        cache := cache
        cacheLookups := 1
        forwardAttempts := 0
        storeArgs := none }
  | none =>
      let headers := eraseHeader (eraseHeader headers "Host") "Content-Length"
      match fwd with
      | .success status response_headers content =>
          let response_headers := setHeader response_headers "X-Cache" "MISS"
          if method = "GET" ∧ 200 ≤ status ∧ status < 400 then
            { response := ⟨status, response_headers, content⟩
              cache := ResponseCache.store cache method path query_string
                         headers status response_headers content
              cacheLookups := 1
              forwardAttempts := 1
              storeArgs := some (method, path, query_string, headers, status,
                                 response_headers, content) }
          else
            { response := ⟨status, response_headers, content⟩
              cache := cache
              cacheLookups := 1
              forwardAttempts := 1
              storeArgs := none }
      | .timeout =>
          { response := ⟨504, [],
              "Gateway Timeout: The server timed out waiting for the target URL"⟩
            cache := cache
            cacheLookups := 1
            forwardAttempts := 1
            storeArgs := none }
      | .failure e =>
          { response := ⟨502, [], "Bad Gateway: Error forwarding request: " ++ e⟩
            cache := cache
            cacheLookups := 1
            forwardAttempts := 1
            storeArgs := none }

end ProxyServer

/-! ### CLI (`caching_proxy/cli.py`) -/

/-- The parsed command, `argparse.Namespace.command` together with the
per-command arguments (`cli.py` lines 28-64). -/
inductive Command
  | run (url : String) (port : Nat) (cache_dir : String) (no_cache : List String)
  | clearCache (cache_dir : String)
  | noCommand

/-- argparse option-token detection: a token beginning with the `-` character. -/
def isOptionTok (s : String) : Bool :=
  match s.data with
  | c :: _ => c == '-'
  | [] => false

/-- Options of the `run` subcommand: `-p` or `--port` (an integer), `-c` or
`--cache-dir`, and `--no-cache` with one or more following non-option tokens.
Anything unrecognized is an argparse usage error, which argparse reports by
raising `SystemExit(2)`; the error result carries that exit status. -/
def parseRunOpts (args : List String) (port : Nat) (dir : String)
    (nc : List String) : Except Nat (Nat × String × List String) :=
  match args with
  | [] => .ok (port, dir, nc)
  | a :: rest =>
      if a = "-p" ∨ a = "--port" then
        match rest with
        | [] => .error 2
        | v :: rest2 =>
            match v.toNat? with
            | some n => parseRunOpts rest2 n dir nc
            | none => .error 2
      else if a = "-c" ∨ a = "--cache-dir" then
        match rest with
        | [] => .error 2
        | v :: rest2 => parseRunOpts rest2 port v nc
      else if a = "--no-cache" then
        let vs := rest.takeWhile (fun s => !(isOptionTok s))
        if vs.isEmpty then .error 2
        else parseRunOpts (rest.drop vs.length) port dir vs
      else .error 2
termination_by args.length
decreasing_by
  all_goals simp [List.length_drop]; omega

/-- Options of the `clear-cache` subcommand: `-c` or `--cache-dir` only. -/
def parseClearOpts : List String → String → Except Nat String
  | [], dir => .ok dir
  | a :: rest, _dir =>
      if a = "-c" ∨ a = "--cache-dir" then
        match rest with
        | [] => .error 2
        | v :: rest2 => parseClearOpts rest2 v
      else .error 2

/-- Shallow embedding of `parse_args` (`cli.py` lines 12-73), restricted to
the command-line shapes the parser defines. `Except.error n` models argparse
terminating the process with `SystemExit(n)`: the version action exits with
status 0, and every usage error (unknown command, missing or malformed
argument) exits with status 2 — `SystemExit` is not caught by `main`'s
handlers, so that status becomes the process exit code via `sys.exit(main())`. -/
def parse_args (argv : List String) : Except Nat Command :=
  match argv with
  | [] => .ok .noCommand
  | "-v" :: _ => .error 0
  | "--version" :: _ => .error 0
  | "run" :: rest =>
      match rest with
      | [] => .error 2
      | url :: opts =>
          if isOptionTok url then .error 2
          else
            match parseRunOpts opts 8000 ".cache" [] with
            | .ok (port, dir, nc) => .ok (.run url port dir nc)
            | .error c => .error c
  | "clear-cache" :: rest =>
      match parseClearOpts rest ".cache" with
      | .ok dir => .ok (.clearCache dir)
      | .error c => .error c
  | _ :: _ => .error 2

/-- The Python exceptions `main` distinguishes (`cli.py` lines 115-123):
`ValueError`, `KeyboardInterrupt`, and other `Exception`s — of which
`TypeError` is the one a bad keyword call raises. -/
inductive PyExc
  | valueError (msg : String)
  | keyboardInterrupt
  | typeError (msg : String)
  | otherError (msg : String)
deriving DecidableEq

/-- The abstract behavior of the collaborator bodies `main` may invoke: what
`run_server`'s body would do were it entered, and what
`ResponseCache(cache_dir).clear()` does. -/
structure CliWorld where
  run_server_body : Except PyExc Unit
  clear_body : Except PyExc Unit

/-- The parameter names of `run_server(target_url, port=8000, cache_dir=".cache")`
(`server.py` line 144). -/
def run_server_params : List String := ["target_url", "port", "cache_dir"]

/-- The keyword-argument names `main` passes to `run_server`
(`cli.py` lines 96-101). -/
def cli_run_kwargs : List String :=
  ["target_url", "port", "cache_dir", "no_cache_paths"]

/-- Python keyword-call semantics: binding the keyword arguments happens
before the callee's body runs, and a keyword that matches no parameter name
raises `TypeError` with the body never entered. Returns (body ran, result). -/
def callWithKeywords (params kwargs : List String)
    (body : Except PyExc Unit) : Bool × Except PyExc Unit :=
  if kwargs.all (fun k => params.contains k) then (true, body)
  else (false, .error (.typeError "got an unexpected keyword argument"))

/-- `main`'s exception-to-exit-code mapping (`cli.py` lines 113-123):
normal completion returns 0, `ValueError` 1, `KeyboardInterrupt` 0,
any other `Exception` 2. -/
def exitOf : Except PyExc Unit → Nat
  | .ok _ => 0
  | .error (.valueError _) => 1
  | .error .keyboardInterrupt => 0
  | .error (.typeError _) => 2
  | .error (.otherError _) => 2

/-- Shallow embedding of the process exit code of `sys.exit(main(argv))`
(`cli.py` lines 76-127), paired with whether `run_server`'s body ever ran.
A `SystemExit` raised by argparse passes through `main` uncaught and its
status becomes the exit code; otherwise `main`'s return value does. The
`run` branch calls `run_server` with the keyword set `cli_run_kwargs`; the
`clear-cache` branch runs `ResponseCache(cache_dir).clear()` and prints;
no command returns 1. -/
def main_exit (w : CliWorld) (argv : List String) : Nat × Bool :=
  match parse_args argv with
  | .error code => (code, false)
  | .ok (.run _ _ _ _) =>
      let r := callWithKeywords run_server_params cli_run_kwargs w.run_server_body
      (exitOf r.2, r.1)
  | .ok (.clearCache _) => (exitOf w.clear_body, false)
  | .ok .noCommand => (1, false)

/-! ### Store operation sequences, for the on-disk provenance invariant -/

/-- One call to `ResponseCache.store`, with its full argument tuple. -/
structure StoreOp where
  method : String
  path : String
  query : String
  request_headers : Headers
  status : Nat
  response_headers : Headers
  content : String

/-- A store call qualifies (actually persists) when the method is GET and
the status lies in [200, 400). -/
def qualifies (op : StoreOp) : Prop :=
  op.method = "GET" ∧ 200 ≤ op.status ∧ op.status < 400

instance (op : StoreOp) : Decidable (qualifies op) := by
  unfold qualifies; infer_instance

/-- The record a qualifying store call persists. -/
def recordOf (op : StoreOp) : CacheRecord :=
  ⟨op.method, op.path, op.query, op.status, op.response_headers, op.content⟩

/-- The key a qualifying store call writes under. -/
def keyOf (op : StoreOp) : CacheKey :=
  generate_cache_key op.method op.path op.query op.request_headers

/-- The cache reached from the empty store by a sequence of store calls
(applied right to left). -/
def applyStores : List StoreOp → Cache
  | [] => []
  | op :: ops =>
      ResponseCache.store (applyStores ops) op.method op.path op.query
        op.request_headers op.status op.response_headers op.content

/-! ### Helper lemmas -/

theorem lookupHeader_cons (p : String × String) (t : Headers) (n : String) :
    lookupHeader (p :: t) n = if p.1 = n then some p.2 else lookupHeader t n := rfl

theorem cacheLookup_cons (p : CacheKey × CacheRecord) (t : Cache) (key : CacheKey) :
    cacheLookup (p :: t) key =
      if p.1 = key then some p.2 else cacheLookup t key := rfl

theorem eraseHeader_cons (p : String × String) (t : Headers) (k : String) :
    eraseHeader (p :: t) k =
      if p.1 = k then eraseHeader t k else p :: eraseHeader t k := by
  by_cases hp : p.1 = k <;> simp [eraseHeader, List.filter_cons, hp]

theorem cacheFilter_cons (p : CacheKey × CacheRecord) (t : Cache) (key : CacheKey) :
    (p :: t).filter (fun q => q.1 ≠ key) =
      if p.1 = key then t.filter (fun q => q.1 ≠ key)
      else p :: t.filter (fun q => q.1 ≠ key) := by
  by_cases hp : p.1 = key <;> simp [List.filter_cons, hp]

theorem lookupHeader_append_not_mem (h : Headers) (k v : String)
    (hk : k ∉ headerNames h) :
    lookupHeader (h ++ [(k, v)]) k = some v := by
  induction h with
  | nil => simp [lookupHeader]
  | cons p t ih =>
      simp only [headerNames, List.map_cons, List.mem_cons, not_or] at hk
      have hne : p.1 ≠ k := fun e => hk.1 e.symm
      rw [List.cons_append, lookupHeader_cons, if_neg hne]
      exact ih hk.2

theorem lookupHeader_map_set (h : Headers) (k v : String)
    (hk : k ∈ headerNames h) :
    lookupHeader (h.map (fun p => if p.1 = k then (k, v) else p)) k = some v := by
  induction h with
  | nil => simp [headerNames] at hk
  | cons p t ih =>
      simp only [List.map_cons]
      by_cases hp : p.1 = k
      · rw [if_pos hp, lookupHeader_cons, if_pos rfl]
      · rw [if_neg hp, lookupHeader_cons, if_neg hp]
        simp only [headerNames, List.map_cons, List.mem_cons] at hk
        rcases hk with h1 | h2
        · exact absurd h1.symm hp
        · exact ih h2

/-- Setting a header makes it retrievable with its new value. -/
theorem lookupHeader_setHeader (h : Headers) (k v : String) :
    lookupHeader (setHeader h k v) k = some v := by
  unfold setHeader
  by_cases hc : (headerNames h).contains k = true
  · rw [if_pos hc]
    exact lookupHeader_map_set h k v (by simpa using hc)
  · rw [if_neg hc]
    exact lookupHeader_append_not_mem h k v (by simpa using hc)

/-- Inserting a record makes it the one retrieved for its key. -/
theorem cacheLookup_cacheInsert_self (c : Cache) (k : CacheKey) (r : CacheRecord) :
    cacheLookup (cacheInsert c k r) k = some r := by
  rw [cacheInsert, cacheLookup_cons, if_pos rfl]

theorem length_eraseHeader_le (h : Headers) (k : String) :
    (eraseHeader h k).length ≤ h.length :=
  List.length_filter_le _ _

theorem length_eraseHeader_lt (h : Headers) (k : String)
    (hk : k ∈ headerNames h) : (eraseHeader h k).length < h.length := by
  induction h with
  | nil => simp [headerNames] at hk
  | cons p t ih =>
      rw [eraseHeader_cons]
      by_cases hp : p.1 = k
      · rw [if_pos hp]
        have hle := length_eraseHeader_le t k
        simp only [List.length_cons]
        omega
      · rw [if_neg hp]
        simp only [headerNames, List.map_cons, List.mem_cons] at hk
        rcases hk with h1 | h2
        · exact absurd h1.symm hp
        · have := ih h2
          simp only [List.length_cons]
          omega

/-- Removing one header name keeps every other name present. -/
theorem mem_names_eraseHeader (h : Headers) (k k' : String)
    (hne : k' ≠ k) (hk : k' ∈ headerNames h) :
    k' ∈ headerNames (eraseHeader h k) := by
  induction h with
  | nil => simp [headerNames] at hk
  | cons p t ih =>
      rw [eraseHeader_cons]
      simp only [headerNames, List.map_cons, List.mem_cons] at hk
      by_cases hp : p.1 = k
      · rw [if_pos hp]
        rcases hk with h1 | h2
        · exact absurd (h1.trans hp) hne
        · exact ih h2
      · rw [if_neg hp]
        simp only [headerNames, List.map_cons, List.mem_cons]
        rcases hk with h1 | h2
        · exact Or.inl h1
        · exact Or.inr (ih h2)

/-- Stripping a header that is present changes the derived cache key: the
entry multiset shrinks, so no permutation relates the two header lists. -/
theorem generate_cache_key_strip_ne (m p q : String) (hs : Headers)
    (hmem : "Host" ∈ headerNames hs ∨ "Content-Length" ∈ headerNames hs) :
    generate_cache_key m p q (eraseHeader (eraseHeader hs "Host") "Content-Length") ≠
      generate_cache_key m p q hs := by
  intro heq
  have hbag := congrArg CacheKey.headerBag heq
  simp only [generate_cache_key] at hbag
  have hperm := Multiset.coe_eq_coe.mp hbag
  have hlen := hperm.length_eq
  have hlt : (eraseHeader (eraseHeader hs "Host") "Content-Length").length <
      hs.length := by
    rcases hmem with hH | hC
    · calc (eraseHeader (eraseHeader hs "Host") "Content-Length").length
          ≤ (eraseHeader hs "Host").length := length_eraseHeader_le _ _
        _ < hs.length := length_eraseHeader_lt hs "Host" hH
    · have hC2 : "Content-Length" ∈ headerNames (eraseHeader hs "Host") :=
        mem_names_eraseHeader hs "Host" "Content-Length" (by decide) hC
      calc (eraseHeader (eraseHeader hs "Host") "Content-Length").length
          < (eraseHeader hs "Host").length :=
            length_eraseHeader_lt _ "Content-Length" hC2
        _ ≤ hs.length := length_eraseHeader_le _ _
  omega

/-- In a header list with no repeated names, a name determines its value. -/
theorem value_eq_of_nodup_names (h : Headers) (hn : (headerNames h).Nodup)
    {n v1 v2 : String} (h1 : (n, v1) ∈ h) (h2 : (n, v2) ∈ h) : v1 = v2 := by
  induction h with
  | nil => simp at h1
  | cons p t ih =>
      simp only [headerNames, List.map_cons, List.nodup_cons] at hn
      rcases List.mem_cons.mp h1 with e1 | m1 <;>
        rcases List.mem_cons.mp h2 with e2 | m2
      · exact congrArg Prod.snd (e1.trans e2.symm)
      · exfalso
        have hpn : p.1 = n := by rw [← e1]
        have hmem : n ∈ List.map Prod.fst t := List.mem_map_of_mem Prod.fst m2
        exact hn.1 (hpn ▸ hmem)
      · exfalso
        have hpn : p.1 = n := by rw [← e2]
        have hmem : n ∈ List.map Prod.fst t := List.mem_map_of_mem Prod.fst m1
        exact hn.1 (hpn ▸ hmem)
      · exact ih hn.2 m1 m2

theorem cacheLookup_filter_ne (c : Cache) (key k : CacheKey) (hne : k ≠ key) :
    cacheLookup (c.filter (fun p => p.1 ≠ key)) k = cacheLookup c k := by
  induction c with
  | nil => rfl
  | cons p t ih =>
      rw [cacheFilter_cons, cacheLookup_cons]
      by_cases hp : p.1 = key
      · have hpk : p.1 ≠ k := fun e => hne (e.symm.trans hp)
        rw [if_pos hp, if_neg hpk]
        exact ih
      · rw [if_neg hp, cacheLookup_cons]
        by_cases hk : p.1 = k
        · rw [if_pos hk, if_pos hk]
        · rw [if_neg hk, if_neg hk]
          exact ih

/-- What one `ResponseCache.store` call can explain about a lookup in its
result: either this call qualified and wrote exactly this record under this
key, or the record was already retrievable before the call. -/
theorem cacheLookup_store_cases (c : Cache) (op : StoreOp) (k : CacheKey)
    (r : CacheRecord)
    (h : cacheLookup (ResponseCache.store c op.method op.path op.query
        op.request_headers op.status op.response_headers op.content) k = some r) :
    (qualifies op ∧ k = keyOf op ∧ r = recordOf op) ∨ cacheLookup c k = some r := by
  unfold ResponseCache.store at h
  split at h
  · next hq =>
      unfold cacheInsert at h
      rw [cacheLookup_cons] at h
      by_cases hk : generate_cache_key op.method op.path op.query
          op.request_headers = k
      · rw [if_pos hk] at h
        exact Or.inl ⟨hq, hk.symm, (Option.some.inj h).symm⟩
      · rw [if_neg hk] at h
        right
        rw [← cacheLookup_filter_ne c _ k (fun e => hk e.symm)]
        exact h
  · exact Or.inr h

/-- Every record retrievable from the cache built by a sequence of store
calls was written by a qualifying call of that sequence. -/
theorem applyStores_provenance (ops : List StoreOp) (k : CacheKey)
    (r : CacheRecord)
    (h : cacheLookup (applyStores ops) k = some r) :
    ∃ op ∈ ops, qualifies op ∧ k = keyOf op ∧ r = recordOf op := by
  induction ops with
  | nil => simp [applyStores, cacheLookup] at h
  | cons op ops ih =>
      rcases cacheLookup_store_cases (applyStores ops) op k r h with hhead | hrest
      · exact ⟨op, List.mem_cons_self op ops, hhead⟩
      · obtain ⟨op2, hmem, hrec⟩ := ih hrest
        exact ⟨op2, List.mem_cons_of_mem op hmem, hrec⟩

/-! ### Concrete fixtures used by witnesses and counterexamples -/

/-- The request of `test_server.py`'s `mock_request` fixture. -/
def plainGetReq : Request :=
  ⟨"GET", "/test", "", [("Accept", "application/json")], ""⟩

/-- A GET request to a path matching the no-cache pattern of
`test_should_cache_path`. -/
def realtimeReq : Request :=
  ⟨"GET", "/realtime/data", "", [("Accept", "application/json")], ""⟩

/-- A GET request carrying a `Host` header. -/
def hostReq : Request :=
  ⟨"GET", "/test", "", [("Host", "localhost"), ("Accept", "application/json")], ""⟩

/-- A qualifying store call, for the provenance witness. -/
def opA : StoreOp := ⟨"GET", "/test", "", [], 200, [], "body"⟩

/-- A CLI world whose collaborator bodies succeed. -/
def okWorld : CliWorld := ⟨.ok (), .ok ()⟩

/-! ### Claims -/

/-- C6: Round-trip — for every path, query string and request headers of a GET
request and every qualifying response (status in [200,400), response headers,
body), calling `ResponseCache.store` and then `ResponseCache.get` with the
same method, path, query string and request headers returns a record whose
status, headers and body exactly match what was stored. -/
theorem C6_cache_round_trip (c : Cache) (p q : String) (reqH : Headers)
    (st : Nat) (respH : Headers) (body : String)
    (h1 : 200 ≤ st) (h2 : st < 400) :
    ResponseCache.get (ResponseCache.store c "GET" p q reqH st respH body)
      "GET" p q reqH = some ⟨"GET", p, q, st, respH, body⟩ := by
  unfold ResponseCache.store ResponseCache.get
  rw [if_pos (rfl : ("GET" : String) = "GET")]
  rw [if_pos (show ("GET" : String) = "GET" ∧ 200 ≤ st ∧ st < 400 from
        ⟨rfl, h1, h2⟩)]
  exact cacheLookup_cacheInsert_self c _ _

/-- Witness for C6 at the concrete scenario of `test_cache_store_and_get`. -/
theorem C6_cache_round_trip_witness :
    (200 ≤ 200 ∧ 200 < 400) ∧
    ResponseCache.get
        (ResponseCache.store [] "GET" "/test" "param=value"
          [("Accept", "application/json")] 200
          [("Content-Type", "application/json")] "test-data")
        "GET" "/test" "param=value" [("Accept", "application/json")] =
      some ⟨"GET", "/test", "param=value", 200,
            [("Content-Type", "application/json")], "test-data"⟩ :=
  ⟨⟨by decide, by decide⟩,
   C6_cache_round_trip [] "/test" "param=value" [("Accept", "application/json")]
     200 [("Content-Type", "application/json")] "test-data"
     (by decide) (by decide)⟩

/-- C7: cache key derivation is deterministic — identical inputs always yield
identical keys; header mappings that differ only in entry ordering yield the
same key; and header mappings that differ in some header's value (with names
unrepeated, as in a Python dict) yield different keys. -/
theorem C7_cache_key_determinism :
    (∀ (m p q : String) (h : Headers),
        generate_cache_key m p q h = generate_cache_key m p q h) ∧
    (∀ (m p q : String) (h1 h2 : Headers), h1.Perm h2 →
        generate_cache_key m p q h1 = generate_cache_key m p q h2) ∧
    (∀ (m p q : String) (h1 h2 : Headers) (n v1 v2 : String),
        (headerNames h2).Nodup → (n, v1) ∈ h1 → (n, v2) ∈ h2 → v1 ≠ v2 →
        generate_cache_key m p q h1 ≠ generate_cache_key m p q h2) := by
  refine ⟨fun m p q h => rfl, ?_, ?_⟩
  · intro m p q h1 h2 hperm
    unfold generate_cache_key
    exact congrArg (CacheKey.mk m p q) (Multiset.coe_eq_coe.mpr hperm)
  · intro m p q h1 h2 n v1 v2 hnd hm1 hm2 hne heq
    have hbag := congrArg CacheKey.headerBag heq
    simp only [generate_cache_key] at hbag
    have hperm := Multiset.coe_eq_coe.mp hbag
    exact hne (value_eq_of_nodup_names h2 hnd (hperm.mem_iff.mp hm1) hm2)

/-- Witness for C7 at the concrete header mappings of
`test_cache_key_generation`. -/
theorem C7_cache_key_determinism_witness :
    generate_cache_key "GET" "/test" "param=value" [("A", "1"), ("B", "2")] =
      generate_cache_key "GET" "/test" "param=value" [("B", "2"), ("A", "1")] ∧
    generate_cache_key "GET" "/test" "param=value"
        [("Accept", "application/json")] ≠
      generate_cache_key "GET" "/test" "param=value" [("Accept", "text/html")] :=
  ⟨C7_cache_key_determinism.2.1 "GET" "/test" "param=value"
     [("A", "1"), ("B", "2")] [("B", "2"), ("A", "1")] (by decide),
   C7_cache_key_determinism.2.2 "GET" "/test" "param=value"
     [("Accept", "application/json")] [("Accept", "text/html")]
     "Accept" "application/json" "text/html"
     (by decide) (by decide) (by decide) (by decide)⟩

/-- C8: `ResponseCache.store` is a silent no-op whenever the method is not GET
or the status lies outside [200,400) — the cache is unchanged, and a get on
the fresh cache (as in `test_non_get_requests_not_cached` and
`test_error_responses_not_cached`) returns absent; moreover every record
retrievable from a cache built by store operations was produced by a
qualifying store. -/
theorem C8_store_noop_invariant :
    (∀ (c : Cache) (m p q : String) (reqH : Headers) (st : Nat)
        (respH : Headers) (body : String),
        ¬(m = "GET" ∧ 200 ≤ st ∧ st < 400) →
        ResponseCache.store c m p q reqH st respH body = c) ∧
    (∀ (m p q : String) (h : Headers), ResponseCache.get [] m p q h = none) ∧
    (∀ (ops : List StoreOp) (k : CacheKey) (r : CacheRecord),
        cacheLookup (applyStores ops) k = some r →
        ∃ op ∈ ops, qualifies op ∧ k = keyOf op ∧ r = recordOf op) := by
  refine ⟨?_, ?_, fun ops k r h => applyStores_provenance ops k r h⟩
  · intro c m p q reqH st respH body hcond
    unfold ResponseCache.store
    rw [if_neg hcond]
  · intro m p q h
    unfold ResponseCache.get
    split <;> rfl

/-- Witness for C8: a POST store on the fresh cache is a no-op and its get is
absent, and the record written by one qualifying store is explained by it. -/
theorem C8_store_noop_invariant_witness :
    ResponseCache.store [] "POST" "/test" "" [] 200 [] "test" = ([] : Cache) ∧
    ResponseCache.get [] "POST" "/test" "" [] = none ∧
    ∃ op ∈ [opA], qualifies op ∧ keyOf opA = keyOf op ∧
      recordOf opA = recordOf op := by
  have h : cacheLookup (applyStores [opA]) (keyOf opA) = some (recordOf opA) := by
    show cacheLookup (ResponseCache.store (applyStores []) opA.method opA.path
        opA.query opA.request_headers opA.status opA.response_headers
        opA.content) (keyOf opA) = some (recordOf opA)
    unfold ResponseCache.store
    rw [if_pos ⟨rfl, by decide, by decide⟩]
    exact cacheLookup_cacheInsert_self (applyStores []) (keyOf opA) (recordOf opA)
  exact ⟨C8_store_noop_invariant.1 [] "POST" "/test" "" [] 200 [] "test"
           (by decide),
         C8_store_noop_invariant.2.1 "POST" "/test" "" [],
         C8_store_noop_invariant.2.2 [opA] (keyOf opA) (recordOf opA) h⟩

/-- C1: contrary to the claim, `ProxyServer.handle_request` consults the
response cache on every request — `self.cache.get` is called exactly once,
unconditionally, at `server.py` line 48, with no method gate and no path
policy (the class accepts no `no_cache_paths` and has no `should_cache_path`,
though its own test `test_should_cache_path` constructs it with both); in
particular a cache lookup occurs for every non-GET request. -/
theorem C1_cache_always_consulted :
    ∀ (cache : Cache) (req : Request) (fwd : ForwardOutcome),
      (ProxyServer.handle_request cache req fwd).cacheLookups = 1 := by
  intro cache req fwd
  simp only [ProxyServer.handle_request]
  cases ResponseCache.get cache req.method req.path req.query_string
      req.headers with
  | some rec => rfl
  | none =>
      cases fwd with
      | success st rh b =>
          dsimp only
          by_cases hc : req.method = "GET" ∧ 200 ≤ st ∧ st < 400
          · rw [if_pos hc]
          · rw [if_neg hc]
      | timeout => rfl
      | failure e => rfl

/-- C2: contrary to the claim's path-policy conjunct, the store gate at
`server.py` line 92 is only `method == "GET" and 200 <= status < 400`: a
successful GET under a configured no-cache pattern (here `/realtime/data`
against the patterns of `test_should_cache_path`) is still passed to
`ResponseCache.store` and persisted. The store call does use the (stripped)
request headers, not the response headers, as its key material. -/
theorem C2_store_ignores_path_policy :
    should_cache_path ["/realtime/*", "/api/status"] "/realtime/data" = false ∧
    (ProxyServer.handle_request [] realtimeReq
        (.success 200 [("Content-Type", "text/plain")] "x")).storeArgs =
      some ("GET", "/realtime/data", "", [("Accept", "application/json")], 200,
            [("Content-Type", "text/plain"), ("X-Cache", "MISS")], "x") ∧
    (ProxyServer.handle_request [] realtimeReq
        (.success 200 [("Content-Type", "text/plain")] "x")).cache =
      cacheInsert []
        (generate_cache_key "GET" "/realtime/data" ""
          [("Accept", "application/json")])
        ⟨"GET", "/realtime/data", "", 200,
         [("Content-Type", "text/plain"), ("X-Cache", "MISS")], "x"⟩ :=
  ⟨by decide, rfl, rfl⟩

/-- C3: on the forward path the header mapping passed to
`ResponseCache.store` is the one that was passed to `ResponseCache.get`
with the `Host` and `Content-Length` entries removed in place between the
two calls (`server.py` lines 48, 64-65 and 97); consequently, whenever the
request headers contain a `Host` or `Content-Length` entry, the key material
used to store the record differs from the key material used to look it up —
on this request and on every identical later one, since the derived keys are
unequal. -/
theorem C3_store_key_material (cache : Cache) (req : Request)
    (st : Nat) (rh : Headers) (b : String)
    (hmiss : ResponseCache.get cache req.method req.path req.query_string
        req.headers = none)
    (hget : req.method = "GET") (h1 : 200 ≤ st) (h2 : st < 400)
    (hmem : "Host" ∈ headerNames req.headers ∨
            "Content-Length" ∈ headerNames req.headers) :
    (ProxyServer.handle_request cache req (.success st rh b)).storeArgs =
      some (req.method, req.path, req.query_string,
            eraseHeader (eraseHeader req.headers "Host") "Content-Length",
            st, setHeader rh "X-Cache" "MISS", b) ∧
    generate_cache_key req.method req.path req.query_string
        (eraseHeader (eraseHeader req.headers "Host") "Content-Length") ≠
      generate_cache_key req.method req.path req.query_string req.headers := by
  constructor
  · simp only [ProxyServer.handle_request, hmiss]
    rw [if_pos ⟨hget, h1, h2⟩]
  · exact generate_cache_key_strip_ne req.method req.path req.query_string
      req.headers hmem

/-- Witness for C3 on a concrete GET request carrying a `Host` header. -/
theorem C3_store_key_material_witness :
    (ProxyServer.handle_request [] hostReq (.success 200 [] "ok")).storeArgs =
      some ("GET", "/test", "",
            eraseHeader (eraseHeader hostReq.headers "Host") "Content-Length",
            200, setHeader [] "X-Cache" "MISS", "ok") ∧
    generate_cache_key "GET" "/test" ""
        (eraseHeader (eraseHeader hostReq.headers "Host") "Content-Length") ≠
      generate_cache_key "GET" "/test" "" hostReq.headers :=
  C3_store_key_material [] hostReq 200 [] "ok" rfl rfl
    (by decide) (by decide) (by decide)

/-- C4 counterexample: on an upstream timeout `ProxyServer.handle_request`
returns the synthetic 504 response with no `X-Cache` header at all, so not
every response it returns carries a cache-status header. -/
theorem C4_missing_header_counterexample :
    (ProxyServer.handle_request [] plainGetReq .timeout).response.status =
      504 ∧
    lookupHeader
        (ProxyServer.handle_request [] plainGetReq .timeout).response.headers
        "X-Cache" = none :=
  ⟨rfl, rfl⟩

/-- C4 (amended): every cache-hit response carries `X-Cache: HIT` and every
successfully forwarded response carries `X-Cache: MISS`; the synthetic
timeout (504) and bad-gateway (502) responses carry no `X-Cache` header. -/
theorem C4_cache_status_header (cache : Cache) (req : Request) :
    (∀ (rec : CacheRecord) (fwd : ForwardOutcome),
        ResponseCache.get cache req.method req.path req.query_string
          req.headers = some rec →
        lookupHeader (ProxyServer.handle_request cache req fwd).response.headers
          "X-Cache" = some "HIT") ∧
    (ResponseCache.get cache req.method req.path req.query_string req.headers =
        none →
      (∀ (st : Nat) (rh : Headers) (b : String),
          lookupHeader (ProxyServer.handle_request cache req
            (.success st rh b)).response.headers "X-Cache" = some "MISS") ∧
      lookupHeader (ProxyServer.handle_request cache req
        .timeout).response.headers "X-Cache" = none ∧
      (∀ e, lookupHeader (ProxyServer.handle_request cache req
        (.failure e)).response.headers "X-Cache" = none)) := by
  constructor
  · intro rec fwd hget
    simp only [ProxyServer.handle_request, hget]
    exact lookupHeader_setHeader rec.headers "X-Cache" "HIT"
  · intro hget
    refine ⟨fun st rh b => ?_, ?_, fun e => ?_⟩
    · simp only [ProxyServer.handle_request, hget]
      by_cases hc : req.method = "GET" ∧ 200 ≤ st ∧ st < 400
      · rw [if_pos hc]
        exact lookupHeader_setHeader rh "X-Cache" "MISS"
      · rw [if_neg hc]
        exact lookupHeader_setHeader rh "X-Cache" "MISS"
    · simp only [ProxyServer.handle_request, hget]
      rfl
    · simp only [ProxyServer.handle_request, hget]
      rfl

/-- Witness for C4 (amended): a concrete hit carries HIT, a concrete
successful forward carries MISS, and a concrete timeout carries no header. -/
theorem C4_cache_status_header_witness :
    lookupHeader (ProxyServer.handle_request
        (cacheInsert [] (generate_cache_key "GET" "/test" ""
            [("Accept", "application/json")])
          ⟨"GET", "/test", "", 200, [("Content-Type", "application/json")],
           "test"⟩)
        plainGetReq .timeout).response.headers "X-Cache" = some "HIT" ∧
    lookupHeader (ProxyServer.handle_request [] plainGetReq
        (.success 200 [("Content-Type", "application/json")] "test")).response.headers
      "X-Cache" = some "MISS" ∧
    lookupHeader (ProxyServer.handle_request [] plainGetReq
        .timeout).response.headers "X-Cache" = none := by
  have hhit : ResponseCache.get
      (cacheInsert [] (generate_cache_key "GET" "/test" ""
          [("Accept", "application/json")])
        ⟨"GET", "/test", "", 200, [("Content-Type", "application/json")],
         "test"⟩)
      plainGetReq.method plainGetReq.path plainGetReq.query_string
      plainGetReq.headers = some
        ⟨"GET", "/test", "", 200, [("Content-Type", "application/json")],
         "test"⟩ := by
    unfold ResponseCache.get
    rw [if_pos (show plainGetReq.method = "GET" from rfl)]
    exact cacheLookup_cacheInsert_self [] _ _
  have hmiss : ResponseCache.get [] plainGetReq.method plainGetReq.path
      plainGetReq.query_string plainGetReq.headers = none := rfl
  exact ⟨(C4_cache_status_header _ plainGetReq).1 _ .timeout hhit,
         ((C4_cache_status_header [] plainGetReq).2 hmiss).1 200
           [("Content-Type", "application/json")] "test",
         ((C4_cache_status_header [] plainGetReq).2 hmiss).2.1⟩

/-- C5: when the cache does not hit, an upstream timeout produces a synthetic
gateway-timeout (504) response with a descriptive body and any other
forwarding error a synthetic bad-gateway (502) response carrying the error
message; exactly one forward attempt is made in each case (single-attempt
semantics, no retry), and in both cases a response is returned — the failure
is not fatal to the proxy. -/
theorem C5_forward_error_handling (cache : Cache) (req : Request)
    (hmiss : ResponseCache.get cache req.method req.path req.query_string
        req.headers = none) :
    ((ProxyServer.handle_request cache req .timeout).response.status = 504 ∧
     (ProxyServer.handle_request cache req .timeout).response.body =
       "Gateway Timeout: The server timed out waiting for the target URL" ∧
     (ProxyServer.handle_request cache req .timeout).forwardAttempts = 1) ∧
    (∀ e,
     (ProxyServer.handle_request cache req (.failure e)).response.status = 502 ∧
     (ProxyServer.handle_request cache req (.failure e)).response.body =
       "Bad Gateway: Error forwarding request: " ++ e ∧
     (ProxyServer.handle_request cache req (.failure e)).forwardAttempts = 1) := by
  constructor
  · simp [ProxyServer.handle_request, hmiss]
  · intro e
    simp [ProxyServer.handle_request, hmiss]

/-- Witness for C5 on the concrete request of the repository's timeout and
error tests. -/
theorem C5_forward_error_handling_witness :
    (ProxyServer.handle_request [] plainGetReq .timeout).response.status =
      504 ∧
    (ProxyServer.handle_request [] plainGetReq
      (.failure "Test error")).response.status = 502 :=
  ⟨(C5_forward_error_handling [] plainGetReq rfl).1.1,
   ((C5_forward_error_handling [] plainGetReq rfl).2 "Test error").1⟩

/-- C9 counterexample: an invalid command-line argument (an unknown command)
is an argparse usage error, which terminates the process with exit status 2 —
not 1 as the claim states. -/
theorem C9_usage_error_counterexample :
    (main_exit okWorld ["bogus"]).1 = 2 ∧ (main_exit okWorld ["bogus"]).1 ≠ 1 :=
  ⟨rfl, by decide⟩

/-- C9 (amended): the process exits with code 0 on success or clean shutdown
including a user-initiated interrupt, 1 when no command is specified or a
`ValueError` escapes command execution, and 2 on an unexpected internal
error; argparse-detected invalid arguments or usage errors, however,
terminate the process with `SystemExit` status 2 (not 1), and `--version`
exits with status 0. -/
theorem C9_cli_exit_codes :
    (∀ w : CliWorld, main_exit w [] = (1, false)) ∧
    (∀ w : CliWorld, main_exit w ["--version"] = (0, false)) ∧
    (∀ w : CliWorld, main_exit w ["bogus"] = (2, false)) ∧
    (∀ b, (main_exit ⟨b, .ok ()⟩ ["clear-cache"]).1 = 0) ∧
    (∀ b, (main_exit ⟨b, .error .keyboardInterrupt⟩ ["clear-cache"]).1 = 0) ∧
    (∀ b m, (main_exit ⟨b, .error (.valueError m)⟩ ["clear-cache"]).1 = 1) ∧
    (∀ b m, (main_exit ⟨b, .error (.typeError m)⟩ ["clear-cache"]).1 = 2) ∧
    (∀ b m, (main_exit ⟨b, .error (.otherError m)⟩ ["clear-cache"]).1 = 2) :=
  ⟨fun _ => rfl, fun _ => rfl, fun _ => rfl, fun _ => rfl, fun _ => rfl,
   fun _ _ => rfl, fun _ _ => rfl, fun _ _ => rfl⟩

/-- C10: for every invocation of the `run` command with a valid URL (one not
parsed as an option), `main` calls `run_server` with a `no_cache_paths`
keyword argument that `run_server`'s signature does not accept; binding the
call raises `TypeError`, which the generic handler catches, so `main` returns
exit code 2 and the server body never runs — whatever that body would have
done. -/
theorem C10_run_type_error (w : CliWorld) (url : String)
    (hurl : isOptionTok url = false) :
    ("no_cache_paths" ∈ cli_run_kwargs ∧ "no_cache_paths" ∉ run_server_params) ∧
    main_exit w ["run", url] = (2, false) := by
  refine ⟨⟨by decide, by decide⟩, ?_⟩
  simp [main_exit, parse_args, parseRunOpts, hurl, callWithKeywords,
    run_server_params, cli_run_kwargs, exitOf]

/-- Witness for C10 at the URL used throughout the repository's tests. -/
theorem C10_run_type_error_witness :
    main_exit okWorld ["run", "http://example.com"] = (2, false) :=
  (C10_run_type_error okWorld "http://example.com" (by decide)).2

end CachingProxy
